import Mathlib

/-!
Shallow embedding of the data-orchestration and rendering layer of
`src/app.js` (classes `HospitalApp` and `HomePage`, plus the global
`refreshData` helper).

Modelling conventions:
* A JS value that may be `undefined` is an `Option`.
* A JS exception is the `error` case of `Except JSError`; a `try { … }
  catch { … }` block is an explicit `match` on that `Except`.
* The DOM is a `DomEnv` (the set of element ids that exist on the page)
  plus a chronological list of writes `(id, content)`.  `innerHTML` /
  `textContent` assignments on a missing element (`getElementById`
  returned `null`) raise a `JSError`, exactly as the corresponding JS
  statement throws a `TypeError`.
* Rendered HTML is kept structured (`Content`): each constructor stands
  for the literal template string built at the corresponding line of
  `src/app.js`; the fields are the interpolated sub-expressions.
* An instant is its epoch-milliseconds value (`Int`).  A `Date` field
  that does not parse (`new Date(s)` gives an invalid date) is `none`;
  calling `toISOString` on it throws, which the embedding reflects.
* `toISOString().split('T')[0]` of an instant is determined by its UTC
  day number `Int.fdiv t 86400000`; two instants yield the same ISO date
  prefix iff they have the same UTC day number, so the embedding compares
  day numbers directly.
-/

namespace ClinicPWA

/-- A thrown JS exception, reduced to its message. -/
structure JSError where
  message : String
deriving DecidableEq

/-! ### APIClient: `HospitalApp.fetchFromAPI` (src/app.js lines 44-63) -/

/-- The parsed JSON envelope of the remote API:
`{ success: bool, message?: string, data?: sequence }`.
`success` is the JS truthiness of the `success` field; absent fields are
`none`. -/
structure Envelope (α : Type) where
  success : Bool
  message : Option String
  data : Option (List α)
deriving DecidableEq

/-- Outcome of reading the HTTP response body: either `response.json()`
throws (malformed / non-JSON body) or it yields an envelope. -/
inductive BodyResult (α : Type) where
  | malformed (msg : String)
  | json (env : Envelope α)
deriving DecidableEq

/-- Outcome of one remote call, as observed by the `try` block of
`fetchFromAPI`.  `transportFailure` covers a rejected `fetch` as well as
any throw before it inside the `try` (e.g. URL construction);
`response` carries the HTTP status and the body. -/
inductive FetchOutcome (α : Type) where
  | transportFailure (msg : String)
  | response (status : Nat) (body : BodyResult α)
deriving DecidableEq

/-- JS `response.ok`: status in the 2xx range. -/
def respOk (status : Nat) : Bool := 200 ≤ status && status < 300

/-- The query string built by appending each parameter of the mapping,
mirroring `url.searchParams.append(key, params[key])` over
`Object.keys(params)`. -/
def buildQuery (params : List (String × String)) : String :=
  String.intercalate "&" (params.map (fun kv => kv.1 ++ "=" ++ kv.2))

/-- The body of the `try` block of `fetchFromAPI`: throw on non-ok
status (line 52), on a malformed body (line 54), and on a non-success
envelope (line 55, message `data.message`, `""` when absent as for
`new Error(undefined)`); otherwise return `data.data` (line 57), which
is `undefined` (`none`) when the envelope has no `data` field. -/
def fetchTry {α : Type} (out : FetchOutcome α) :
    Except JSError (Option (List α)) :=
  match out with
  | .transportFailure msg => .error ⟨msg⟩
  | .response status body =>
    if respOk status then
      match body with
      | .malformed msg => .error ⟨msg⟩
      | .json env =>
        if env.success then .ok env.data
        else .error ⟨env.message.getD ""⟩
    else .error ⟨"HTTP error! status: " ++ toString status⟩

/-- Result of `fetchFromAPI` as seen by its caller: the returned JS
value (`none` models `undefined`) and the error-toast messages emitted
via `showError` during the call. -/
structure FetchResult (α : Type) where
  value : Option (List α)
  notices : List String
deriving DecidableEq

/-- The outcomes the claim and §4.1 of the spec enumerate as failures:
transport failure, non-success HTTP status, malformed body, envelope
with a falsy `success`. -/
def isFailureOutcome {α : Type} : FetchOutcome α → Bool
  | .transportFailure _ => true
  | .response status body =>
    if respOk status then
      match body with
      | .malformed _ => true
      | .json env => !env.success
    else true

/-- `HospitalApp.fetchFromAPI` (lines 44-63): the `try` body wrapped in
the `catch` that logs, calls `showError` with
`Failed to load data: ${error.message}` (line 60) and returns `[]`
(line 61).  `params` only parameterises the request URL; the outcome of
the network exchange is `out`. -/
def fetchFromAPI {α : Type} (_params : List (String × String))
    (out : FetchOutcome α) : FetchResult α :=
  match fetchTry out with
  | .ok v => ⟨v, []⟩
  | .error e => ⟨some [], ["Failed to load data: " ++ e.message]⟩

/-- `fetchFromAPI` with its exception behaviour made explicit: an
`Except.error` here would be an exception propagating to the caller.
The `catch` arm turns every `fetchTry` failure into a normal return. -/
def fetchFromAPIRun {α : Type} (_params : List (String × String))
    (out : FetchOutcome α) : Except JSError (FetchResult α) :=
  match fetchTry out with
  | .ok v => .ok ⟨v, []⟩
  | .error e => .ok ⟨some [], ["Failed to load data: " ++ e.message]⟩

/-! ### DOM model -/

/-- The element ids present on the page.  `document.getElementById`
succeeds exactly on these. -/
structure DomEnv where
  present : List String
deriving DecidableEq

/-- One rendered schedule entry (the template at lines 217-227):
`title` is the interpolation of `item.Clinic`, `subtitle` of
`item.Consultants?.split(',').slice(0, 2).join(', ')` followed by the
literal `...`, and the badge class and text. -/
structure ScheduleItem where
  title : String
  subtitle : String
  badgeClass : String
  badgeText : String
deriving DecidableEq

/-- One rendered on-call entry (the template at lines 251-258):
`title` interpolates `item.ConsultantOnCall`, `team` the line
`Team: ${item.SeniorRegistrarOnCall}, ${item.RegistrarOnCall}`. -/
structure CallItem where
  title : String
  team : String
deriving DecidableEq

/-- Structured value of an `innerHTML` / `textContent` assignment.
Each constructor corresponds to one literal template of `src/app.js`. -/
inductive Content where
  | loading
  | noData (msg : String)
  | errorBox (msg : String)
  | scheduleItems (xs : List ScheduleItem)
  | callItems (xs : List CallItem)
  | text (s : String)
deriving DecidableEq

/-- A completed DOM write: target element id and the content assigned. -/
abbrev DomWrite := String × Content

/-- Assignment `document.getElementById(tid).innerHTML = c`: succeeds
when the element exists, throws a `TypeError` when `getElementById`
returned `null`. -/
def setInnerHTML (env : DomEnv) (tid : String) (c : Content) :
    Except JSError DomWrite :=
  if tid ∈ env.present then .ok (tid, c)
  else .error ⟨"TypeError: cannot set property of null"⟩

/-- Assignment `document.getElementById(tid).textContent = s`: same
success and failure behaviour as `setInnerHTML`. -/
def setTextContent (env : DomEnv) (tid : String) (s : String) :
    Except JSError DomWrite :=
  if tid ∈ env.present then .ok (tid, .text s)
  else .error ⟨"TypeError: cannot set property of null"⟩

/-- `HospitalApp.showLoading` (lines 93-97): guarded by
`if (container)`, so a missing element is a silent no-op. -/
def showLoading (env : DomEnv) (tid : String) : List DomWrite :=
  if tid ∈ env.present then [(tid, Content.loading)] else []

/-- Final content of one render target after a list of writes (the last
`innerHTML` / `textContent` assignment to it wins). -/
def targetContent (ws : List DomWrite) (tid : String) : Option Content :=
  ((ws.filter (fun w => w.1 == tid)).getLast?).map (·.2)

/-- Result of one aggregation routine: the DOM writes it performed, and
`some e` when the routine's promise rejected with `e` (an exception
escaped the routine), `none` when it resolved. -/
structure RoutineResult where
  writes : List DomWrite
  err : Option JSError
deriving DecidableEq

/-! ### Records fetched from the remote API -/

/-- A `Notifications` sheet record; only `Status` is consumed. -/
structure NotificationRec where
  Status : Option String
deriving DecidableEq

/-- A roster entry as consumed by `loadTodaySchedule`; absent fields
are `none`. -/
structure RosterEntry where
  Clinic : Option String
  Consultants : Option String
  Status : Option String
deriving DecidableEq

/-- A call-roster entry as consumed by `loadOnCallToday`.  `Date` is
the instant (epoch ms) that `new Date(item.Date)` yields from the
date-like string, `none` when the string does not parse (invalid
date: `toISOString` on it throws). -/
structure CallRosterEntry where
  Date : Option Int
  ConsultantOnCall : String
  SeniorRegistrarOnCall : String
  RegistrarOnCall : String
deriving DecidableEq

/-- JS template interpolation of a possibly-undefined string value:
`undefined` renders as the text `undefined`. -/
def jsDisplay (o : Option String) : String :=
  match o with
  | some s => s
  | none => "undefined"

/-- JS `a || b` for a possibly-undefined string `a`: falsy (`undefined`
or the empty string) falls through to `b`. -/
def jsOrDefault (o : Option String) (dflt : String) : String :=
  match o with
  | some s => if s = "" then dflt else s
  | none => dflt

/-- JS `String.prototype.split(',')` at the character level (auxiliary
recursion over the remaining characters and the reversed current
token). -/
def splitCommaAux : List Char → List Char → List String
  | [], acc => [String.mk acc.reverse]
  | ch :: rest, acc =>
    if ch = ',' then String.mk acc.reverse :: splitCommaAux rest []
    else splitCommaAux rest (ch :: acc)

/-- JS `s.split(',')`: splits on every comma; `"".split(',')` is
`[""]`. -/
def jsSplitComma (s : String) : List String := splitCommaAux s.data []

/-! ### Calendar days -/

/-- Milliseconds per day. -/
def msPerDay : Int := 86400000

/-- UTC day number of an instant: determines (and is determined by) the
`toISOString().split('T')[0]` date prefix. -/
def utcDay (t : Int) : Int := Int.fdiv t msPerDay

/-- Modelled from the spec: the calendar day of an instant in the local
timezone, which the code never computes (the source only uses
`toISOString`, i.e. UTC).  `tzOffMin` is the local-minus-UTC offset in
minutes, so local wall-clock time is `t + tzOffMin * 60000`. -/
def localDay (tzOffMin : Int) (t : Int) : Int :=
  Int.fdiv (t + tzOffMin * 60000) msPerDay

/-! ### `HomePage.loadStats` (src/app.js lines 176-199) -/

/-- JS `xs?.length || 0` for a possibly-undefined sequence. -/
def jsLenOrZero {α : Type} (o : Option (List α)) : Nat :=
  match o with
  | none => 0
  | some l => l.length

/-- The count computed at lines 192-194:
`notifications?.filter(n => n.Status === 'Pending').length || 0`.
Strict equality: only the exact string `Pending` matches; an absent
`Status` (`undefined === 'Pending'`) does not. -/
def pendingCount (notifications : Option (List NotificationRec)) : Nat :=
  match notifications with
  | none => 0
  | some l => (l.filter (fun n => n.Status == some "Pending")).length

/-- Specification-side count, following the words of the claim: the
number of Notification records whose `Status` field is exactly the
string `Pending`. -/
def specPendingCount (ns : List NotificationRec) : Nat :=
  (ns.filter (fun n => decide (n.Status = some "Pending"))).length

/-- `HomePage.loadStats`: four `textContent` assignments in source
order inside a `try` whose `catch` only logs (lines 196-198), so a
throw abandons the remaining assignments but the routine always
resolves.  The four inputs are the values the four awaited
`fetchFromAPI` calls returned. -/
def loadStats (env : DomEnv) (doctors clinics roster : Option (List Unit))
    (notifications : Option (List NotificationRec)) : RoutineResult :=
  match setTextContent env "doctor-count" (toString (jsLenOrZero doctors)) with
  | .error _ => ⟨[], none⟩
  | .ok w1 =>
    match setTextContent env "clinic-count" (toString (jsLenOrZero clinics)) with
    | .error _ => ⟨[w1], none⟩
    | .ok w2 =>
      match setTextContent env "roster-count" (toString (jsLenOrZero roster)) with
      | .error _ => ⟨[w1, w2], none⟩
      | .ok w3 =>
        match setTextContent env "notification-count"
            (toString (pendingCount notifications)) with
        | .error _ => ⟨[w1, w2, w3], none⟩
        | .ok w4 => ⟨[w1, w2, w3, w4], none⟩

/-! ### `HomePage.loadTodaySchedule` (src/app.js lines 201-231) -/

/-- The schedule-item template (lines 218-226) for one entry:
`<h4>${item.Clinic}</h4>`,
`<p>${item.Consultants?.split(',').slice(0, 2).join(', ')}...</p>`,
badge class `item.Status === 'Sent' ? 'badge-sent' : 'badge-pending'`,
badge text `${item.Status || 'Pending'}`. -/
def renderScheduleItem (item : RosterEntry) : ScheduleItem :=
  { title := jsDisplay item.Clinic
    subtitle :=
      jsDisplay (item.Consultants.map
        (fun s => String.intercalate ", " ((jsSplitComma s).take 2))) ++ "..."
    badgeClass := if item.Status == some "Sent" then "badge-sent" else "badge-pending"
    badgeText := jsOrDefault item.Status "Pending" }

/-- The `schedule.map(item => …)` rendering pass (line 217).  The pass
only reads the entries; the second component is the state of the source
records after the pass, which the code never assigns to. -/
def renderSchedulePass (items : List RosterEntry) :
    List ScheduleItem × List RosterEntry :=
  (items.map renderScheduleItem, items)

/-- `HomePage.loadTodaySchedule`: `showLoading` on the container (line
203, null-guarded), then the `try` block — `schedule.length` throws on
an `undefined` result, an empty schedule writes the no-data placeholder
(line 213), otherwise the rendered items are assigned — and the `catch`
(lines 228-230), whose own `container.innerHTML` assignment throws when
the container is absent, rejecting the routine. -/
def loadTodaySchedule (env : DomEnv) (schedule : Option (List RosterEntry)) :
    RoutineResult :=
  let pre := showLoading env "today-schedule"
  let tryRes : Except JSError (List DomWrite) :=
    match schedule with
    | none => .error ⟨"TypeError: cannot read properties of undefined"⟩
    | some items =>
      if items.length = 0 then
        match setInnerHTML env "today-schedule"
            (Content.noData "No schedule for today") with
        | .ok w => .ok [w]
        | .error e => .error e
      else
        match setInnerHTML env "today-schedule"
            (Content.scheduleItems (renderSchedulePass items).1) with
        | .ok w => .ok [w]
        | .error e => .error e
  match tryRes with
  | .ok ws => ⟨pre ++ ws, none⟩
  | .error _ =>
    match setInnerHTML env "today-schedule"
        (Content.errorBox "Failed to load schedule") with
    | .ok w => ⟨pre ++ [w], none⟩
    | .error e2 => ⟨pre, some e2⟩

/-! ### `HomePage.loadOnCallToday` (src/app.js lines 233-262) -/

/-- The call-item template (lines 252-257) for one entry. -/
def renderCallItem (item : CallRosterEntry) : CallItem :=
  { title := item.ConsultantOnCall
    team := "Team: " ++ item.SeniorRegistrarOnCall ++ ", " ++ item.RegistrarOnCall }

/-- The filter at lines 241-244, left to right:
`new Date(item.Date).toISOString().split('T')[0] === today` — throws at
the first entry whose date is invalid, otherwise keeps the entries
whose UTC day equals `today`. -/
def filterTodayOnCall (today : Int) :
    List CallRosterEntry → Except JSError (List CallRosterEntry)
  | [] => .ok []
  | e :: rest =>
    match e.Date with
    | none => .error ⟨"RangeError: Invalid time value"⟩
    | some t =>
      match filterTodayOnCall today rest with
      | .error err => .error err
      | .ok tail => .ok (if utcDay t == today then e :: tail else tail)

/-- Pure form of the same filter, defined on rosters whose dates all
parse. -/
def codeTodayOnCall (now : Int) (roster : List CallRosterEntry) :
    List CallRosterEntry :=
  roster.filter (fun e =>
    match e.Date with
    | none => false
    | some t => utcDay t == utcDay now)

/-- The set of entries the claim describes, following its words: those
whose `Date`, normalized to a calendar day, equals the current calendar
day in local time. -/
def claimedTodayOnCall (tzOffMin : Int) (now : Int)
    (roster : List CallRosterEntry) : List CallRosterEntry :=
  roster.filter (fun e =>
    match e.Date with
    | none => false
    | some t => localDay tzOffMin t == localDay tzOffMin now)

/-- `HomePage.loadOnCallToday`: `showLoading` (line 235), then the
`try` block — `callRoster.filter` throws on an `undefined` result,
`today` is the UTC day of the current instant (line 239), an empty
filtered list writes the no-data placeholder (line 247), otherwise the
rendered call items are assigned — and the `catch` (lines 259-261),
whose own assignment throws when the container is absent. -/
def loadOnCallToday (env : DomEnv) (callRoster : Option (List CallRosterEntry))
    (now : Int) : RoutineResult :=
  let pre := showLoading env "on-call-today"
  let tryRes : Except JSError (List DomWrite) :=
    match callRoster with
    | none => .error ⟨"TypeError: cannot read properties of undefined"⟩
    | some items =>
      match filterTodayOnCall (utcDay now) items with
      | .error e => .error e
      | .ok todayOnCall =>
        if todayOnCall.length = 0 then
          match setInnerHTML env "on-call-today"
              (Content.noData "No on-call duty today") with
          | .ok w => .ok [w]
          | .error e => .error e
        else
          match setInnerHTML env "on-call-today"
              (Content.callItems (todayOnCall.map renderCallItem)) with
          | .ok w => .ok [w]
          | .error e => .error e
  match tryRes with
  | .ok ws => ⟨pre ++ ws, none⟩
  | .error _ =>
    match setInnerHTML env "on-call-today"
        (Content.errorBox "Failed to load on-call data") with
    | .ok w => ⟨pre ++ [w], none⟩
    | .error e2 => ⟨pre, some e2⟩

/-! ### `HomePage.loadData` (src/app.js lines 168-174) -/

/-- `Promise.all([loadStats, loadTodaySchedule, loadOnCallToday])`:
all three routines run to completion regardless of each other (no
cancellation), their writes all land (serialised here in routine order;
the claims only inspect per-target content, which is independent of the
interleaving), and the combined promise rejects iff any routine
rejected. -/
def loadData (env : DomEnv) (doctors clinics rosterStats : Option (List Unit))
    (notifications : Option (List NotificationRec))
    (schedule : Option (List RosterEntry))
    (callRoster : Option (List CallRosterEntry)) (now : Int) : RoutineResult :=
  let s := loadStats env doctors clinics rosterStats notifications
  let sch := loadTodaySchedule env schedule
  let oc := loadOnCallToday env callRoster now
  ⟨s.writes ++ sch.writes ++ oc.writes, s.err <|> sch.err <|> oc.err⟩

/-! ### Toast lifecycle: `showError` (lines 65-91) and `refreshData`
(lines 266-286) -/

/-- The auto-removal delay of an error toast:
`setTimeout(() => toast.remove(), 5000)` at line 90. -/
def errorToastTimeoutMs : Nat := 5000

/-- The auto-removal delay of the refresh confirmation toast:
`setTimeout(() => toast.remove(), 3000)` at line 285. -/
def refreshToastTimeoutMs : Nat := 3000

/-- Events in the life of one toast element: the user clicking its
close button (`this.parentElement.remove()`, line 72) or the pending
`setTimeout` callback firing (`toast.remove()`). -/
inductive ToastEvent where
  | manualDismiss
  | timerFire
deriving DecidableEq

/-- DOM `Element.remove()`: detaches the element, and is specified as a
no-op (not an error) when the element has no parent; it never throws,
whatever the attachment state. -/
def elemRemove (_attached : Bool) : Except JSError Bool := .ok false

/-- One event applied to a toast whose attachment state is `attached`.
Both the close button and the timer callback call `remove()` on the
toast element. -/
def toastStep (attached : Bool) : ToastEvent → Except JSError Bool
  | .manualDismiss => elemRemove attached
  | .timerFire => elemRemove attached

/-- A toast processing a sequence of events; an `Except.error` would be
an exception raised by one of the handlers. -/
def runToast (attached : Bool) : List ToastEvent → Except JSError Bool
  | [] => .ok attached
  | ev :: rest =>
    match toastStep attached ev with
    | .error e => .error e
    | .ok b => runToast b rest

/-! ## Theorems -/

/-- The `try` body of `fetchFromAPI` throws exactly on the failure
outcomes the spec enumerates. -/
theorem fetchTry_error_of_failure {α : Type} (out : FetchOutcome α)
    (h : isFailureOutcome out = true) : ∃ e, fetchTry out = .error e := by
  cases out with
  | transportFailure msg => exact ⟨⟨msg⟩, rfl⟩
  | response status body =>
    by_cases hok : respOk status = true
    · cases body with
      | malformed msg => exact ⟨⟨msg⟩, by simp [fetchTry, hok]⟩
      | json env =>
        simp only [isFailureOutcome, hok, if_true] at h
        have hs : env.success = false := by
          cases hsucc : env.success
          · rfl
          · rw [hsucc] at h
            simp at h
        exact ⟨⟨env.message.getD ""⟩, by simp [fetchTry, hok, hs]⟩
    · exact ⟨⟨"HTTP error! status: " ++ toString status⟩, by simp [fetchTry, hok]⟩

/-- C1: for every parameter mapping and every outcome of the remote
call, `fetchFromAPI` never propagates an exception to its caller
(`fetchFromAPIRun` always resolves, to the very value `fetchFromAPI`
denotes), and on each of the enumerated failure outcomes it returns the
empty sequence and reports the error through exactly one notification. -/
theorem fetch_fail_soft {α : Type} (params : List (String × String))
    (out : FetchOutcome α) :
    fetchFromAPIRun params out = .ok (fetchFromAPI params out) ∧
    (isFailureOutcome out = true →
      (fetchFromAPI params out).value = some [] ∧
      (fetchFromAPI params out).notices.length = 1) := by
  constructor
  · unfold fetchFromAPIRun fetchFromAPI
    cases fetchTry out <;> rfl
  · intro h
    obtain ⟨e, he⟩ := fetchTry_error_of_failure out h
    unfold fetchFromAPI
    rw [he]
    exact ⟨rfl, rfl⟩

/-- Witness for C1 at a concrete failure outcome (a rejected `fetch`). -/
theorem fetch_fail_soft_witness :
    fetchFromAPIRun [("operation", "getDoctors")]
        (FetchOutcome.transportFailure (α := Unit) "Failed to fetch")
      = .ok (fetchFromAPI [("operation", "getDoctors")]
        (FetchOutcome.transportFailure "Failed to fetch")) ∧
    (fetchFromAPI [("operation", "getDoctors")]
        (FetchOutcome.transportFailure (α := Unit) "Failed to fetch")).value
      = some [] ∧
    (fetchFromAPI [("operation", "getDoctors")]
        (FetchOutcome.transportFailure (α := Unit) "Failed to fetch")).notices.length
      = 1 :=
  ⟨(fetch_fail_soft _ _).1,
   ((fetch_fail_soft _ _).2 (by decide)).1,
   ((fetch_fail_soft _ _).2 (by decide)).2⟩

/-- C4: on the envelope `{success: false, message: X}` (with a 2xx
status), `fetchFromAPI` produces exactly the one notification
`Failed to load data: X` — which contains `X` — and returns the empty
sequence. -/
theorem fetch_envelope_single_notice (params : List (String × String))
    (X : String) :
    (fetchFromAPI (α := Unit) params
        (.response 200 (.json ⟨false, some X, none⟩))).value = some [] ∧
    (fetchFromAPI (α := Unit) params
        (.response 200 (.json ⟨false, some X, none⟩))).notices
      = ["Failed to load data: " ++ X] ∧
    X.data <:+: ("Failed to load data: " ++ X).data := by
  refine ⟨rfl, rfl, List.IsSuffix.isInfix ?_⟩
  rw [String.data_append]
  exact List.suffix_append _ _

/-- A toast always resolves every sequence of lifecycle events without
raising: each handler only calls `Element.remove()`, which is a no-op
on a detached element. -/
theorem runToast_resolves (b : Bool) (evs : List ToastEvent) :
    ∃ c, runToast b evs = .ok c := by
  induction evs generalizing b with
  | nil => exact ⟨b, rfl⟩
  | cons ev rest ih =>
    cases ev <;> simpa [runToast, toastStep, elemRemove] using ih false

/-- C9: the auto-removal delays are 5000 (error toast) and 3000
(refresh confirmation); the timer firing alone removes the toast; a
manual dismissal removes it immediately; and the pending timer firing
after a manual dismissal raises no error; indeed no sequence of
lifecycle events can make a toast handler raise. -/
theorem toast_lifecycle :
    errorToastTimeoutMs = 5000 ∧ refreshToastTimeoutMs = 3000 ∧
    (∀ evs : List ToastEvent, ∃ b, runToast true evs = .ok b) ∧
    runToast true [ToastEvent.timerFire] = .ok false ∧
    runToast true [ToastEvent.manualDismiss] = .ok false ∧
    runToast true [ToastEvent.manualDismiss, ToastEvent.timerFire] = .ok false :=
  ⟨rfl, rfl, fun evs => runToast_resolves true evs, rfl, rfl, rfl⟩

/-- Writing to a present element succeeds with that write. -/
theorem setInnerHTML_ok (env : DomEnv) (tid : String) (c : Content)
    (h : tid ∈ env.present) : setInnerHTML env tid c = .ok (tid, c) := by
  simp [setInnerHTML, h]

/-- Writing text to a present element succeeds with that write. -/
theorem setTextContent_ok (env : DomEnv) (tid : String) (s : String)
    (h : tid ∈ env.present) : setTextContent env tid s = .ok (tid, .text s) := by
  simp [setTextContent, h]

/-- `loadStats` resolves on every page configuration and input: its
`catch` only logs. -/
theorem loadStats_err_none (env : DomEnv)
    (doctors clinics roster : Option (List Unit))
    (notifications : Option (List NotificationRec)) :
    (loadStats env doctors clinics roster notifications).err = none := by
  unfold loadStats
  split
  · rfl
  split
  · rfl
  split
  · rfl
  split <;> rfl

/-- `loadTodaySchedule` resolves whenever its own container exists: the
`catch` then lands its placeholder write. -/
theorem loadTodaySchedule_err_none (env : DomEnv)
    (schedule : Option (List RosterEntry))
    (hs : "today-schedule" ∈ env.present) :
    (loadTodaySchedule env schedule).err = none := by
  have hset := setInnerHTML_ok env "today-schedule"
    (Content.errorBox "Failed to load schedule") hs
  simp only [loadTodaySchedule, hset]
  split <;> rfl

/-- `loadOnCallToday` resolves whenever its own container exists. -/
theorem loadOnCallToday_err_none (env : DomEnv)
    (callRoster : Option (List CallRosterEntry)) (now : Int)
    (ho : "on-call-today" ∈ env.present) :
    (loadOnCallToday env callRoster now).err = none := by
  have hset := setInnerHTML_ok env "on-call-today"
    (Content.errorBox "Failed to load on-call data") ho
  simp only [loadOnCallToday, hset]
  split <;> rfl

/-- C2 is false as stated: with the `today-schedule` render target
absent, the `catch` handler of `loadTodaySchedule` itself assigns
`container.innerHTML` on `null` and throws, so the routine rejects and
the overall refresh (`loadData`, a `Promise.all` over the three
routines) rejects with it. -/
theorem render_containment_counterexample :
    (loadTodaySchedule ⟨[]⟩ (some [])).err.isSome = true ∧
    (loadData ⟨[]⟩ (some []) (some []) (some []) (some []) (some [])
        (some []) 0).err.isSome = true := by
  decide

/-- A successful `textContent` assignment wrote to the element it was
aimed at. -/
theorem setTextContent_fst (env : DomEnv) (tid s : String) (w : DomWrite)
    (h : setTextContent env tid s = .ok w) : w.1 = tid := by
  unfold setTextContent at h
  by_cases hp : tid ∈ env.present
  · rw [if_pos hp] at h
    cases h
    rfl
  · rw [if_neg hp] at h
    cases h

/-- `loadStats` writes only into the four stat targets, never into
another routine's render target. -/
theorem loadStats_writes_targets (env : DomEnv)
    (doctors clinics roster : Option (List Unit))
    (notifications : Option (List NotificationRec)) :
    ∀ w ∈ (loadStats env doctors clinics roster notifications).writes,
      w.1 = "doctor-count" ∨ w.1 = "clinic-count" ∨ w.1 = "roster-count"
        ∨ w.1 = "notification-count" := by
  unfold loadStats
  cases h1 : setTextContent env "doctor-count"
      (toString (jsLenOrZero doctors)) with
  | error e =>
    intro w hw
    simp at hw
  | ok w1 =>
    have hf1 := setTextContent_fst env _ _ _ h1
    cases h2 : setTextContent env "clinic-count"
        (toString (jsLenOrZero clinics)) with
    | error e =>
      intro w hw
      simp at hw
      rw [hw]
      exact Or.inl hf1
    | ok w2 =>
      have hf2 := setTextContent_fst env _ _ _ h2
      cases h3 : setTextContent env "roster-count"
          (toString (jsLenOrZero roster)) with
      | error e =>
        intro w hw
        simp at hw
        rcases hw with rfl | rfl
        · exact Or.inl hf1
        · exact Or.inr (Or.inl hf2)
      | ok w3 =>
        have hf3 := setTextContent_fst env _ _ _ h3
        cases h4 : setTextContent env "notification-count"
            (toString (pendingCount notifications)) with
        | error e =>
          intro w hw
          simp at hw
          rcases hw with rfl | rfl | rfl
          · exact Or.inl hf1
          · exact Or.inr (Or.inl hf2)
          · exact Or.inr (Or.inr (Or.inl hf3))
        | ok w4 =>
          have hf4 := setTextContent_fst env _ _ _ h4
          intro w hw
          simp at hw
          rcases hw with rfl | rfl | rfl | rfl
          · exact Or.inl hf1
          · exact Or.inr (Or.inl hf2)
          · exact Or.inr (Or.inr (Or.inl hf3))
          · exact Or.inr (Or.inr (Or.inr hf4))

/-- Full run of `loadTodaySchedule` when its container exists: the
loading write, then — in the container and nowhere else — the
no-data placeholder, the rendered items, or (for a render-time failure,
here an `undefined` fetch result making `schedule.length` throw) the
local error placeholder; the routine resolves in every case. -/
theorem loadTodaySchedule_run (env : DomEnv)
    (schedule : Option (List RosterEntry))
    (hs : "today-schedule" ∈ env.present) :
    loadTodaySchedule env schedule =
      ⟨[("today-schedule", Content.loading),
        ("today-schedule",
          match schedule with
          | none => Content.errorBox "Failed to load schedule"
          | some items =>
            if items.length = 0 then Content.noData "No schedule for today"
            else Content.scheduleItems (renderSchedulePass items).1)],
        none⟩ := by
  cases schedule with
  | none => simp [loadTodaySchedule, showLoading, setInnerHTML, hs]
  | some items =>
    by_cases h0 : items.length = 0 <;>
      simp [loadTodaySchedule, showLoading, setInnerHTML, hs, h0]

/-- Full run of `loadOnCallToday` when its container exists: the
loading write, then — in the container and nowhere else — the
placeholder, the rendered items, or (for a render-time failure:
`undefined` fetch result or an unparseable date) the local error
placeholder; the routine resolves in every case. -/
theorem loadOnCallToday_run (env : DomEnv)
    (callRoster : Option (List CallRosterEntry)) (now : Int)
    (ho : "on-call-today" ∈ env.present) :
    loadOnCallToday env callRoster now =
      ⟨[("on-call-today", Content.loading),
        ("on-call-today",
          match callRoster with
          | none => Content.errorBox "Failed to load on-call data"
          | some items =>
            match filterTodayOnCall (utcDay now) items with
            | .error _ => Content.errorBox "Failed to load on-call data"
            | .ok keep =>
              if keep.length = 0 then Content.noData "No on-call duty today"
              else Content.callItems (keep.map renderCallItem))],
        none⟩ := by
  cases callRoster with
  | none => simp [loadOnCallToday, showLoading, setInnerHTML, ho]
  | some items =>
    cases hf : filterTodayOnCall (utcDay now) items with
    | error err => simp [loadOnCallToday, showLoading, setInnerHTML, ho, hf]
    | ok keep =>
      by_cases h0 : keep.length = 0 <;>
        simp [loadOnCallToday, showLoading, setInnerHTML, ho, hf, h0]

/-- A roster containing an unparseable date makes the on-call filter
throw (the `toISOString` call in the filter callback raises). -/
theorem filterTodayOnCall_error_of_invalid (today : Int)
    (roster : List CallRosterEntry) (h : ∃ e ∈ roster, e.Date = none) :
    ∃ err, filterTodayOnCall today roster = .error err := by
  induction roster with
  | nil =>
    obtain ⟨e, he, -⟩ := h
    simp at he
  | cons e rest ih =>
    cases hd : e.Date with
    | none =>
      exact ⟨⟨"RangeError: Invalid time value"⟩,
        by simp [filterTodayOnCall, hd]⟩
    | some t =>
      obtain ⟨x, hx, hxd⟩ := h
      rcases List.mem_cons.mp hx with rfl | hx2
      · rw [hd] at hxd
        cases hxd
      · obtain ⟨err, herr⟩ := ih ⟨x, hx2, hxd⟩
        exact ⟨err, by simp [filterTodayOnCall, hd, herr]⟩

/-- C2 amended: `loadStats` always degrades to a no-op on failure,
never rejects, and writes only the four stat targets;
`loadTodaySchedule` and `loadOnCallToday`, provided their own render
target is present, never reject, write only into their own target, and
surface every render-time failure (an `undefined` fetch result; for the
on-call routine also an unparseable date) as the local error
placeholder left in that target; under those conditions every routine's
writes land in the overall refresh and `loadData` resolves — a failure
in one routine never aborts a sibling nor the refresh. -/
theorem render_containment_amended (env : DomEnv)
    (doctors clinics rosterStats : Option (List Unit))
    (notifications : Option (List NotificationRec))
    (schedule : Option (List RosterEntry))
    (callRoster : Option (List CallRosterEntry)) (now : Int)
    (hs : "today-schedule" ∈ env.present)
    (ho : "on-call-today" ∈ env.present) :
    (loadStats env doctors clinics rosterStats notifications).err = none ∧
    (∀ w ∈ (loadStats env doctors clinics rosterStats notifications).writes,
      w.1 = "doctor-count" ∨ w.1 = "clinic-count" ∨ w.1 = "roster-count"
        ∨ w.1 = "notification-count") ∧
    (loadTodaySchedule env schedule).err = none ∧
    (∀ w ∈ (loadTodaySchedule env schedule).writes,
      w.1 = "today-schedule") ∧
    (schedule = none →
      targetContent (loadTodaySchedule env schedule).writes "today-schedule"
        = some (Content.errorBox "Failed to load schedule")) ∧
    (loadOnCallToday env callRoster now).err = none ∧
    (∀ w ∈ (loadOnCallToday env callRoster now).writes,
      w.1 = "on-call-today") ∧
    (∀ roster, callRoster = some roster → (∃ e ∈ roster, e.Date = none) →
      targetContent (loadOnCallToday env callRoster now).writes
          "on-call-today"
        = some (Content.errorBox "Failed to load on-call data")) ∧
    (callRoster = none →
      targetContent (loadOnCallToday env callRoster now).writes
          "on-call-today"
        = some (Content.errorBox "Failed to load on-call data")) ∧
    (loadData env doctors clinics rosterStats notifications schedule
        callRoster now).writes
      = (loadStats env doctors clinics rosterStats notifications).writes
        ++ (loadTodaySchedule env schedule).writes
        ++ (loadOnCallToday env callRoster now).writes ∧
    (loadData env doctors clinics rosterStats notifications schedule
        callRoster now).err = none := by
  have hsch := loadTodaySchedule_run env schedule hs
  have honc := loadOnCallToday_run env callRoster now ho
  refine ⟨loadStats_err_none env doctors clinics rosterStats notifications,
    loadStats_writes_targets env doctors clinics rosterStats notifications,
    ?_, ?_, ?_, ?_, ?_, ?_, ?_, rfl, ?_⟩
  · rw [hsch]
  · rw [hsch]
    intro w hw
    simp at hw
    rcases hw with rfl | rfl <;> rfl
  · intro h
    subst h
    rw [hsch]
    simp [targetContent, List.filter]
  · rw [honc]
  · rw [honc]
    intro w hw
    simp at hw
    rcases hw with rfl | rfl <;> rfl
  · intro roster hr hinv
    subst hr
    rw [honc]
    obtain ⟨err, herr⟩ := filterTodayOnCall_error_of_invalid (utcDay now)
      roster hinv
    simp [targetContent, List.filter, herr]
  · intro h
    subst h
    rw [honc]
    simp [targetContent, List.filter]
  · simp only [loadData,
      loadStats_err_none env doctors clinics rosterStats notifications,
      loadTodaySchedule_err_none env schedule hs,
      loadOnCallToday_err_none env callRoster now ho]
    rfl

/-- Witness for C2 amended at a concrete page with both containers
present and both fan-out fetches failing soft to `undefined`: the
routines resolve, each leaves its own local error placeholder, and the
refresh resolves. -/
theorem render_containment_amended_witness :
    (loadTodaySchedule ⟨["today-schedule", "on-call-today"]⟩ none).err
      = none ∧
    targetContent
        (loadTodaySchedule ⟨["today-schedule", "on-call-today"]⟩ none).writes
        "today-schedule"
      = some (Content.errorBox "Failed to load schedule") ∧
    (loadOnCallToday ⟨["today-schedule", "on-call-today"]⟩ none 0).err
      = none ∧
    targetContent
        (loadOnCallToday ⟨["today-schedule", "on-call-today"]⟩ none 0).writes
        "on-call-today"
      = some (Content.errorBox "Failed to load on-call data") ∧
    (loadData ⟨["today-schedule", "on-call-today"]⟩ (some []) (some [])
        (some []) (some []) none none 0).err = none := by
  obtain ⟨-, -, h3, -, h5, h6, -, -, h9, -, h11⟩ :=
    render_containment_amended ⟨["today-schedule", "on-call-today"]⟩
      (some []) (some []) (some []) (some []) none none 0
      (by decide) (by decide)
  exact ⟨h3, h5 rfl, h6, h9 rfl, h11⟩

/-- The count the code computes coincides with the claim-side count of
records whose `Status` is exactly the string `Pending`. -/
theorem pendingCount_eq_spec (ns : List NotificationRec) :
    pendingCount (some ns) = specPendingCount ns := by
  show (ns.filter (fun n => n.Status == some "Pending")).length
    = (ns.filter (fun n => decide (n.Status = some "Pending"))).length
  congr 1
  apply List.filter_congr
  intro n _
  by_cases h : n.Status = some "Pending" <;> simp [h]

/-- C5: with the four stat targets present, the value `loadStats`
writes to the `notification-count` render target is exactly the number
of Notification records whose `Status` field is the string `Pending`
(case-sensitive); records with any other status or no `Status`
contribute nothing. -/
theorem stats_pending_notification_count (env : DomEnv)
    (doctors clinics roster : Option (List Unit)) (ns : List NotificationRec)
    (h1 : "doctor-count" ∈ env.present) (h2 : "clinic-count" ∈ env.present)
    (h3 : "roster-count" ∈ env.present)
    (h4 : "notification-count" ∈ env.present) :
    targetContent (loadStats env doctors clinics roster (some ns)).writes
        "notification-count"
      = some (Content.text (toString (specPendingCount ns))) := by
  have e1 := setTextContent_ok env "doctor-count"
    (toString (jsLenOrZero doctors)) h1
  have e2 := setTextContent_ok env "clinic-count"
    (toString (jsLenOrZero clinics)) h2
  have e3 := setTextContent_ok env "roster-count"
    (toString (jsLenOrZero roster)) h3
  have e4 := setTextContent_ok env "notification-count"
    (toString (pendingCount (some ns))) h4
  simp only [loadStats, e1, e2, e3, e4]
  simp [targetContent, List.filter, pendingCount_eq_spec ns]

/-- Witness for C5: one Pending record, one Sent record, one record
with no status — the count written is 1. -/
theorem stats_pending_notification_count_witness :
    targetContent
        (loadStats ⟨["doctor-count", "clinic-count", "roster-count",
            "notification-count"]⟩ (some []) (some []) (some [])
          (some [⟨some "Pending"⟩, ⟨some "Sent"⟩, ⟨none⟩])).writes
        "notification-count"
      = some (Content.text (toString (specPendingCount
          [⟨some "Pending"⟩, ⟨some "Sent"⟩, ⟨none⟩]))) :=
  stats_pending_notification_count
    ⟨["doctor-count", "clinic-count", "roster-count", "notification-count"]⟩
    (some []) (some []) (some []) [⟨some "Pending"⟩, ⟨some "Sent"⟩, ⟨none⟩]
    (by decide) (by decide) (by decide) (by decide)

/-- C6: when the roster fetched for today is the empty sequence,
`loadTodaySchedule` resolves and leaves the `today-schedule` target
holding the single no-schedule placeholder — not a (possibly empty)
list of schedule items. -/
theorem schedule_empty_placeholder (env : DomEnv)
    (h : "today-schedule" ∈ env.present) :
    (loadTodaySchedule env (some [])).err = none ∧
    targetContent (loadTodaySchedule env (some [])).writes "today-schedule"
      = some (Content.noData "No schedule for today") ∧
    ∀ xs, targetContent (loadTodaySchedule env (some [])).writes
        "today-schedule" ≠ some (Content.scheduleItems xs) := by
  have hrun : loadTodaySchedule env (some []) =
      ⟨[("today-schedule", Content.loading),
        ("today-schedule", Content.noData "No schedule for today")], none⟩ := by
    simp [loadTodaySchedule, showLoading, setInnerHTML, h]
  rw [hrun]
  refine ⟨rfl, by simp [targetContent, List.filter], ?_⟩
  intro xs
  simp [targetContent, List.filter]

/-- Witness for C6 at a concrete page. -/
theorem schedule_empty_placeholder_witness :
    (loadTodaySchedule ⟨["today-schedule"]⟩ (some [])).err = none ∧
    targetContent (loadTodaySchedule ⟨["today-schedule"]⟩ (some [])).writes
        "today-schedule"
      = some (Content.noData "No schedule for today") ∧
    ∀ xs, targetContent (loadTodaySchedule ⟨["today-schedule"]⟩
        (some [])).writes "today-schedule"
      ≠ some (Content.scheduleItems xs) :=
  schedule_empty_placeholder ⟨["today-schedule"]⟩ (by decide)

/-- C7: on the roster
`[{Clinic: ENT, Consultants: A,B,C, Status: Sent}]` the schedule target
ends up with exactly one item, title `ENT`, subtitle `A, B` followed by
the continuation marker, and badge text `Sent`. -/
theorem schedule_concrete_ent_scenario :
    targetContent
        (loadTodaySchedule ⟨["today-schedule"]⟩
          (some [⟨some "ENT", some "A,B,C", some "Sent"⟩])).writes
        "today-schedule"
      = some (Content.scheduleItems
          [⟨"ENT", "A, B" ++ "...", "badge-sent", "Sent"⟩]) := by
  decide

/-- C8: an entry with no `Status` is rendered with badge text `Pending`
(and the pending badge class), while the rendering pass leaves the
source records untouched — the default exists only in the rendered
output. -/
theorem schedule_status_default_display_only (entries : List RosterEntry)
    (e : RosterEntry) (hmem : e ∈ entries) (habs : e.Status = none) :
    renderScheduleItem e ∈ (renderSchedulePass entries).1 ∧
    (renderScheduleItem e).badgeText = "Pending" ∧
    (renderScheduleItem e).badgeClass = "badge-pending" ∧
    (renderSchedulePass entries).2 = entries := by
  refine ⟨List.mem_map_of_mem renderScheduleItem hmem, ?_, ?_, rfl⟩
  · simp [renderScheduleItem, jsOrDefault, habs]
  · simp [renderScheduleItem, habs]

/-- Witness for C8 on a one-entry roster without a status. -/
theorem schedule_status_default_display_only_witness :
    renderScheduleItem ⟨some "ENT", some "A", none⟩
      ∈ (renderSchedulePass [⟨some "ENT", some "A", none⟩]).1 ∧
    (renderScheduleItem ⟨some "ENT", some "A", none⟩).badgeText = "Pending" ∧
    (renderScheduleItem ⟨some "ENT", some "A", none⟩).badgeClass
      = "badge-pending" ∧
    (renderSchedulePass [⟨some "ENT", some "A", none⟩]).2
      = [⟨some "ENT", some "A", none⟩] :=
  schedule_status_default_display_only [⟨some "ENT", some "A", none⟩]
    ⟨some "ENT", some "A", none⟩ (by decide) rfl

/-- C10: every rendered schedule entry carries the continuation marker
`...` after its consultant names, unconditionally — in particular an
entry with at most two consultants, where nothing was elided, is still
rendered with all its consultant names followed by the marker. -/
theorem schedule_marker_unconditional (entries : List RosterEntry)
    (e : RosterEntry) (hmem : e ∈ entries) :
    renderScheduleItem e ∈ (renderSchedulePass entries).1 ∧
    (∃ b, (renderScheduleItem e).subtitle = b ++ "...") ∧
    (∀ s, e.Consultants = some s → (jsSplitComma s).length ≤ 2 →
      (renderScheduleItem e).subtitle
        = String.intercalate ", " (jsSplitComma s) ++ "...") := by
  refine ⟨List.mem_map_of_mem renderScheduleItem hmem, ⟨_, rfl⟩, ?_⟩
  intro s hc hlen
  simp [renderScheduleItem, hc, jsDisplay, List.take_of_length_le hlen]

/-- Witness for C10: a single-consultant entry — nothing is elided, yet
the marker is appended. -/
theorem schedule_marker_unconditional_witness :
    renderScheduleItem ⟨some "ENT", some "A", some "Sent"⟩
      ∈ (renderSchedulePass [⟨some "ENT", some "A", some "Sent"⟩]).1 ∧
    (∃ b, (renderScheduleItem
        ⟨some "ENT", some "A", some "Sent"⟩).subtitle = b ++ "...") ∧
    (∀ s, (⟨some "ENT", some "A", some "Sent"⟩ :
        RosterEntry).Consultants = some s →
      (jsSplitComma s).length ≤ 2 →
      (renderScheduleItem ⟨some "ENT", some "A", some "Sent"⟩).subtitle
        = String.intercalate ", " (jsSplitComma s) ++ "...") :=
  schedule_marker_unconditional [⟨some "ENT", some "A", some "Sent"⟩]
    ⟨some "ENT", some "A", some "Sent"⟩ (by decide)

/-- On a roster all of whose dates parse, the fallible filter of
`loadOnCallToday` resolves to the pure UTC-day filter. -/
theorem filterTodayOnCall_resolves (now : Int)
    (roster : List CallRosterEntry) (h : ∀ e ∈ roster, e.Date ≠ none) :
    filterTodayOnCall (utcDay now) roster
      = .ok (codeTodayOnCall now roster) := by
  induction roster with
  | nil => rfl
  | cons e rest ih =>
    have he : e.Date ≠ none := h e (List.mem_cons_self e rest)
    obtain ⟨t, ht⟩ := Option.ne_none_iff_exists'.mp he
    have hrest := ih (fun x hx => h x (List.mem_cons_of_mem e hx))
    by_cases hq : (utcDay t == utcDay now) = true <;>
      simp [filterTodayOnCall, codeTodayOnCall, List.filter_cons, ht, hrest,
        hq]

/-- C3 is false as stated: at the instant 84600000 ms after the epoch
(23:30 UTC on UTC day 0) in a locale 120 minutes ahead of UTC, the
current local calendar day is day 1, yet `loadOnCallToday` — which
compares `toISOString` (UTC) date prefixes — renders the entry dated at
instant 0, whose calendar day (local as well as UTC) is day 0.  The
set the claim describes is empty at this input, but the target receives
a one-entry rendering. -/
theorem oncall_local_day_counterexample :
    targetContent
        (loadOnCallToday ⟨["on-call-today"]⟩
          (some [⟨some 0, "A", "B", "C"⟩]) 84600000).writes
        "on-call-today"
      = some (Content.callItems [⟨"A", "Team: B, C"⟩]) ∧
    claimedTodayOnCall 120 84600000 [⟨some 0, "A", "B", "C"⟩] = [] ∧
    localDay 120 0 ≠ localDay 120 84600000 := by
  refine ⟨by decide, by decide, by decide⟩

/-- C3 amended: on a call roster whose dates all parse and with the
`on-call-today` target present, `loadOnCallToday` resolves and renders
exactly those entries whose `Date`, normalized to a calendar day in
UTC (the `toISOString` date prefix), equals the current calendar day in
UTC — not local time — preserving the original relative order of the
input sequence (the kept entries form a sublist). -/
theorem oncall_utc_day_filter (env : DomEnv)
    (roster : List CallRosterEntry) (now : Int)
    (hmem : "on-call-today" ∈ env.present)
    (hdates : ∀ e ∈ roster, e.Date ≠ none) :
    (loadOnCallToday env (some roster) now).err = none ∧
    targetContent (loadOnCallToday env (some roster) now).writes
        "on-call-today"
      = some (if (codeTodayOnCall now roster).length = 0
              then Content.noData "No on-call duty today"
              else Content.callItems
                ((codeTodayOnCall now roster).map renderCallItem)) ∧
    (codeTodayOnCall now roster).Sublist roster := by
  have hfil := filterTodayOnCall_resolves now roster hdates
  have hrun : loadOnCallToday env (some roster) now =
      ⟨[("on-call-today", Content.loading),
        ("on-call-today",
          if (codeTodayOnCall now roster).length = 0
          then Content.noData "No on-call duty today"
          else Content.callItems
            ((codeTodayOnCall now roster).map renderCallItem))], none⟩ := by
    by_cases hempty : (codeTodayOnCall now roster).length = 0 <;>
      simp [loadOnCallToday, showLoading, setInnerHTML, hmem, hfil, hempty]
  rw [hrun]
  exact ⟨rfl, by simp [targetContent, List.filter],
    List.filter_sublist roster⟩

/-- Witness for C3 amended: a two-entry roster, one entry on the
current UTC day and one on the day before; only the former is kept. -/
theorem oncall_utc_day_filter_witness :
    (loadOnCallToday ⟨["on-call-today"]⟩
        (some [⟨some 0, "A", "B", "C"⟩, ⟨some (-1), "D", "E", "F"⟩])
        43200000).err = none ∧
    targetContent
        (loadOnCallToday ⟨["on-call-today"]⟩
          (some [⟨some 0, "A", "B", "C"⟩, ⟨some (-1), "D", "E", "F"⟩])
          43200000).writes "on-call-today"
      = some (if (codeTodayOnCall 43200000
              [⟨some 0, "A", "B", "C"⟩, ⟨some (-1), "D", "E", "F"⟩]).length = 0
            then Content.noData "No on-call duty today"
            else Content.callItems
              ((codeTodayOnCall 43200000
                [⟨some 0, "A", "B", "C"⟩,
                 ⟨some (-1), "D", "E", "F"⟩]).map renderCallItem)) ∧
    (codeTodayOnCall 43200000
        [⟨some 0, "A", "B", "C"⟩, ⟨some (-1), "D", "E", "F"⟩]).Sublist
      [⟨some 0, "A", "B", "C"⟩, ⟨some (-1), "D", "E", "F"⟩] :=
  oncall_utc_day_filter ⟨["on-call-today"]⟩
    [⟨some 0, "A", "B", "C"⟩, ⟨some (-1), "D", "E", "F"⟩] 43200000
    (by decide) (by decide)

end ClinicPWA
